import Mathlib

/-!
Verification of the imagecreat photo editor's core client-side logic.

The definitions below are a shallow embedding of the editor's state
management, translated from the React application source:

* the App component's state and its handlers (history push / undo / redo,
  ratio change, text placement, suggestion selection, component upload,
  failure paths of the commit operations);
* the geometry resolver that maps a letterboxed image element's natural
  and client dimensions to its rendered box and offsets;
* the pointer-drag logic of the InteractiveText and InteractiveComponent
  overlays;
* the affine transform the component merge applies through the canvas
  (translate, rotate, scale) call sequence.

JavaScript numbers are modelled as rationals, so every division and the
centering arithmetic are exact; an angle is carried as the pair of its
cosine and sine so that rotation stays inside the rationals.
-/

/-- Geometry record returned by getRenderedImageGeometry: the rendered
(object-contain) box of the image inside its client box, the letterbox
offsets, and the display-to-natural scale factor. -/
structure Geometry where
  renderedWidth : ℚ
  renderedHeight : ℚ
  offsetX : ℚ
  offsetY : ℚ
  scale : ℚ
deriving Repr, DecidableEq

/-- Translation of getRenderedImageGeometry (App.tsx and the overlay
components): compare the natural aspect ratio with the client aspect
ratio; the wider side is pinned to the client box and the other axis is
scaled and centered. -/
def getRenderedImageGeometry (naturalWidth naturalHeight clientWidth clientHeight : ℚ) :
    Geometry :=
  let naturalAspectRatio := naturalWidth / naturalHeight
  let clientAspectRatio := clientWidth / clientHeight
  if naturalAspectRatio > clientAspectRatio then
    let renderedWidth := clientWidth
    let renderedHeight := clientWidth / naturalAspectRatio
    { renderedWidth := renderedWidth
      renderedHeight := renderedHeight
      offsetX := 0
      offsetY := (clientHeight - renderedHeight) / 2
      scale := naturalWidth / renderedWidth }
  else
    let renderedHeight := clientHeight
    let renderedWidth := clientHeight * naturalAspectRatio
    { renderedWidth := renderedWidth
      renderedHeight := renderedHeight
      offsetX := (clientWidth - renderedWidth) / 2
      offsetY := 0
      scale := naturalWidth / renderedWidth }

/-- The ActiveText record of InteractiveText.tsx: style fields plus the
dual coordinates, x and y in natural-image pixels and displayX, displayY
in display pixels relative to the image container. -/
structure ActiveText where
  text : String
  fontFamily : String
  fontSize : ℚ
  fontWeight : String
  fontStyle : String
  color : String
  x : ℚ
  y : ℚ
  displayX : ℚ
  displayY : ℚ
deriving Repr, DecidableEq

/-- The ComponentLayer record of InteractiveText.tsx: an overlay image
layer with a string id, its source data url, the original file (kept as
its name here), fractional center coordinates, scale, rotation in
degrees, and the two flip flags. -/
structure ComponentLayer where
  id : String
  src : String
  originalFile : String
  x : ℚ
  y : ℚ
  scale : ℚ
  rotation : ℚ
  flipH : Bool
  flipV : Bool
deriving Repr, DecidableEq

/-- The App component's state hooks that the claims are about: the
snapshot history with its cursor, the session error slot, the loading
flag, and the overlay state. Snapshots are their data urls. -/
structure AppState where
  history : List String
  historyIndex : ℤ
  error : Option String
  isLoading : Bool
  activeText : Option ActiveText
  componentLayers : List ComponentLayer
  activeComponentId : Option String
deriving Repr, DecidableEq

/-- The initial values of the useState hooks in App.tsx: empty history,
cursor -1, no error, nothing loading, no overlays. -/
def initialState : AppState :=
  { history := []
    historyIndex := -1
    error := none
    isLoading := false
    activeText := none
    componentLayers := []
    activeComponentId := none }

/-- Translation of pushToHistory: clear the error, keep the snapshots up
to and including the cursor, append the new one, and point the cursor at
the new last element. -/
def pushToHistory (s : AppState) (imageDataUrl : String) : AppState :=
  let newHistory := s.history.take (s.historyIndex + 1).toNat ++ [imageDataUrl]
  { s with
    error := none
    history := newHistory
    historyIndex := (newHistory.length : ℤ) - 1 }

/-- Translation of handleUndo: when the cursor is past the first
snapshot, move it back one step and clear the transient overlay state;
otherwise do nothing. -/
def handleUndo (s : AppState) : AppState :=
  if s.historyIndex > 0 then
    { s with
      historyIndex := s.historyIndex - 1
      activeText := none
      componentLayers := []
      activeComponentId := none }
  else s

/-- Translation of handleRedo: when the cursor is before the last
snapshot, move it forward one step and clear the transient overlay
state; otherwise do nothing. -/
def handleRedo (s : AppState) : AppState :=
  if s.historyIndex < (s.history.length : ℤ) - 1 then
    { s with
      historyIndex := s.historyIndex + 1
      activeText := none
      componentLayers := []
      activeComponentId := none }
  else s

/-- Push a whole list of snapshots one after the other. -/
def pushMany (s : AppState) (snaps : List String) : AppState :=
  snaps.foldl pushToHistory s

/-- Apply handleUndo k times. -/
def undoMany : AppState → ℕ → AppState
  | s, 0 => s
  | s, k + 1 => undoMany (handleUndo s) k

/-- Net state change of handleApplyAdjustment's catch and finally blocks
when the remote call rejects: the error slot receives the message and
the loading flag is cleared; nothing is pushed. -/
def handleApplyAdjustmentFailure (s : AppState) (message : String) : AppState :=
  { s with error := some message, isLoading := false }

/-- Net observable state of handleMergeComponent when either image
fails to decode: the handler sets the loading flag first, and its two
load promises call resolve from onload only and never reject, so
Promise.all stays pending forever - neither the then callback nor the
catch handler ever runs, no error is stored, nothing is pushed, and the
loading flag remains stuck true. -/
def handleMergeComponentDecodeFailure (s : AppState) : AppState :=
  { s with isLoading := true }

/-- The literal message handleMergeComponent stores when the canvas 2d
context cannot be created. -/
def mergeContextErrorMessage : String := "Could not create canvas context."

/-- Net state change of handleMergeComponent's only failure path that
stores an error: both images decode but the canvas 2d context cannot be
created, so the handler stores its message, clears the loading flag,
and pushes nothing. -/
def handleMergeComponentContextFailure (s : AppState) : AppState :=
  { s with error := some mergeContextErrorMessage, isLoading := false }

/-- The literal message handleApplyRatio's img.onerror handler stores. -/
def ratioLoadErrorMessage : String := "Could not load current image for processing."

/-- Net state change of handleApplyRatio when the current snapshot fails
to decode: img.onerror stores its message and clears the loading flag;
nothing is pushed. -/
def handleApplyRatioFailure (s : AppState) : AppState :=
  { s with error := some ratioLoadErrorMessage, isLoading := false }

/-- Net state change of handleAddText when the current snapshot fails to
decode: the source registers img.onload only and no onerror handler, so
a decode failure runs no code at all and the state is left as it was. -/
def handleAddTextFailure (s : AppState) : AppState := s

/-- Translation of handleImageClick's placement logic: the click point
relative to the rendered image decides acceptance; inside the bounds a
fresh ActiveText is created with the default style and both coordinate
pairs. The tool and no-existing-text guards are handled by the caller
and the function returns the ActiveText to store, or none when the
click falls outside the image. -/
def handleImageClick (geometry : Geometry) (displayX displayY : ℚ) : Option ActiveText :=
  let imageRelativeX := displayX - geometry.offsetX
  let imageRelativeY := displayY - geometry.offsetY
  if imageRelativeX < 0 ∨ imageRelativeX > geometry.renderedWidth ∨
      imageRelativeY < 0 ∨ imageRelativeY > geometry.renderedHeight then
    none
  else
    some
      { text := "Your Text Here"
        fontFamily := "Roboto"
        fontSize := 50
        fontWeight := "bold"
        fontStyle := "normal"
        color := "#FFFFFF"
        x := imageRelativeX * geometry.scale
        y := imageRelativeY * geometry.scale
        displayX := displayX
        displayY := displayY }

/-- Translation of handleSelectSuggestion: with an existing ActiveText
only its text is replaced; otherwise a new one is created at the center
of the rendered image with font size 60. -/
def handleSelectSuggestion (geometry : Geometry) (existing : Option ActiveText)
    (suggestion : String) : ActiveText :=
  match existing with
  | some t => { t with text := suggestion }
  | none =>
    let centerX := geometry.offsetX + geometry.renderedWidth / 2
    let centerY := geometry.offsetY + geometry.renderedHeight / 2
    { text := suggestion
      fontFamily := "Roboto"
      fontSize := 60
      fontWeight := "bold"
      fontStyle := "normal"
      color := "#FFFFFF"
      x := (centerX - geometry.offsetX) * geometry.scale
      y := (centerY - geometry.offsetY) * geometry.scale
      displayX := centerX
      displayY := centerY }

/-- Translation of InteractiveText's handleMouseMove drag branch: the
mouse delta moves the drag-start display position, the result is
clamped to the rendered image box, and the natural coordinates are
recomputed from the clamped display position. -/
def textDragMove (geometry : Geometry) (t : ActiveText)
    (startMouseX startMouseY startTextX startTextY mouseX mouseY : ℚ) : ActiveText :=
  let dx := mouseX - startMouseX
  let dy := mouseY - startMouseY
  let newDisplayX := max geometry.offsetX
    (min (startTextX + dx) (geometry.renderedWidth + geometry.offsetX))
  let newDisplayY := max geometry.offsetY
    (min (startTextY + dy) (geometry.renderedHeight + geometry.offsetY))
  { t with
    displayX := newDisplayX
    displayY := newDisplayY
    x := (newDisplayX - geometry.offsetX) * geometry.scale
    y := (newDisplayY - geometry.offsetY) * geometry.scale }

/-- The pre-clamp coordinates of InteractiveComponent's handleMouseMove
drag branch: the screen-pixel delta divided by the rendered dimensions
is added to the drag-start fractional position. -/
def componentDragRaw (geometry : Geometry) (startComponentX startComponentY dx dy : ℚ) :
    ℚ × ℚ :=
  (startComponentX + dx / geometry.renderedWidth,
    startComponentY + dy / geometry.renderedHeight)

/-- Translation of InteractiveComponent's handleMouseMove drag branch:
the raw fractional position with each coordinate clamped to the 0-1
range by max and min, exactly as in the source. -/
def componentDragMove (geometry : Geometry) (startComponentX startComponentY dx dy : ℚ) :
    ℚ × ℚ :=
  let raw := componentDragRaw geometry startComponentX startComponentY dx dy
  (max 0 (min 1 raw.1), max 0 (min 1 raw.2))

/-- Translation of handleComponentUpload's success path: a fresh layer
with id built from the current Date.now() millisecond value, default
transform, appended to the collection and selected. -/
def handleComponentUpload (s : AppState) (now : ℕ) (file dataUrl : String) : AppState :=
  let newComponent : ComponentLayer :=
    { id := "comp_" ++ toString now
      src := dataUrl
      originalFile := file
      x := 1 / 2
      y := 1 / 2
      scale := 1 / 2
      rotation := 0
      flipH := false
      flipV := false }
  { s with
    componentLayers := s.componentLayers ++ [newComponent]
    activeComponentId := some newComponent.id }

/-- Run a sequence of component uploads; each entry carries the
Date.now() value observed by that upload together with the file name
and decoded data url. -/
def uploadMany (s : AppState) (entries : List (ℕ × String × String)) : AppState :=
  entries.foldl (fun acc e => handleComponentUpload acc e.1 e.2.1 e.2.2) s

/-- The id string handleComponentUpload assigns for a given Date.now()
value. -/
def componentIdOf (now : ℕ) : String := "comp_" ++ toString now

/-- JavaScript Math.round: floor of the argument plus one half. -/
def jsRound (q : ℚ) : ℤ := ⌊q + 1 / 2⌋

/-- The dimensions and draw offsets handleApplyRatio computes: branch on
the target ratio against the original ratio, hold the pinned dimension,
grow the other, round both, and center the original on the new canvas. -/
structure RatioResult where
  newWidth : ℤ
  newHeight : ℤ
  drawX : ℚ
  drawY : ℚ
deriving Repr, DecidableEq

/-- Translation of handleApplyRatio's geometry (the img.onload body up
to the drawImage call): new dimensions from the ratio comparison, both
rounded with Math.round, and the centering offsets passed to drawImage. -/
def handleApplyRatio (originalWidth originalHeight aspectRatio : ℚ) : RatioResult :=
  let originalAspectRatio := originalWidth / originalHeight
  let dims :=
    if aspectRatio > originalAspectRatio then
      (originalHeight * aspectRatio, originalHeight)
    else
      (originalWidth, originalWidth / aspectRatio)
  let newWidth := jsRound dims.1
  let newHeight := jsRound dims.2
  { newWidth := newWidth
    newHeight := newHeight
    drawX := ((newWidth : ℚ) - originalWidth) / 2
    drawY := ((newHeight : ℚ) - originalHeight) / 2 }

/-- A point of the 2D canvas plane. -/
structure Point where
  x : ℚ
  y : ℚ
deriving Repr, DecidableEq

/-- Rotation about the origin, carried by the cosine and sine of the
angle so the arithmetic stays rational. -/
def rotatePoint (cosR sinR : ℚ) (p : Point) : Point :=
  { x := cosR * p.x - sinR * p.y, y := sinR * p.x + cosR * p.y }

/-- The ctx.scale (flipH, flipV) step: negate the axes whose flip flag
is set. -/
def flipPoint (fH fV : Bool) (p : Point) : Point :=
  { x := if fH then -p.x else p.x, y := if fV then -p.y else p.y }

/-- Translation by the component's center. -/
def translatePoint (c p : Point) : Point :=
  { x := c.x + p.x, y := c.y + p.y }

/-- Translation of handleMergeComponent's transform sequence
(ctx.translate, ctx.rotate, ctx.scale, then drawImage): the current
transform matrix composes the three calls left to right, so a point p
in the component's local frame is mapped to translate (rotate (scale
p)). cosR and sinR are the cosine and sine of layer.rotation converted
to radians; for a 90 degree rotation they are 0 and 1. -/
def mergeComponentTransform (layer : ComponentLayer) (center : Point) (cosR sinR : ℚ)
    (p : Point) : Point :=
  translatePoint center (rotatePoint cosR sinR (flipPoint layer.flipH layer.flipV p))

/-- Modelled from the spec wording of the merge transform order:
"rotation is applied before flip-scaling", that is, the local point is
rotated first and the flip mirrors the already-rotated image. Kept for
comparison with the transform the source actually performs. -/
def rotateThenFlipTransform (layer : ComponentLayer) (center : Point) (cosR sinR : ℚ)
    (p : Point) : Point :=
  translatePoint center (flipPoint layer.flipH layer.flipV (rotatePoint cosR sinR p))

/-- The component's center in natural base-image pixels, as computed in
handleMergeComponent. -/
def mergeComponentCenter (layer : ComponentLayer) (baseWidth baseHeight : ℚ) : Point :=
  { x := layer.x * baseWidth, y := layer.y * baseHeight }

/-- The predicate the spec's letterboxing invariant asserts of a
geometry: exactly one of the two offsets is zero. -/
def exactlyOneOffsetZero (g : Geometry) : Prop :=
  (g.offsetX = 0 ∧ g.offsetY ≠ 0) ∨ (g.offsetX ≠ 0 ∧ g.offsetY = 0)

instance (g : Geometry) : Decidable (exactlyOneOffsetZero g) := by
  unfold exactlyOneOffsetZero; infer_instance

/-- The ActiveText dual-coordinate invariant: the natural coordinates
agree with the display coordinates under the given geometry. -/
def textInvariant (g : Geometry) (t : ActiveText) : Prop :=
  t.x = (t.displayX - g.offsetX) * g.scale ∧ t.y = (t.displayY - g.offsetY) * g.scale

/-! ## Helper lemmas about the history store -/

/-- pushToHistory always leaves the cursor on the last element of the
new history. -/
theorem pushToHistory_index (s : AppState) (x : String) :
    (pushToHistory s x).historyIndex = ((pushToHistory s x).history.length : ℤ) - 1 := by
  simp [pushToHistory]

/-- When the cursor sits on the last element, pushToHistory appends
without truncating anything. -/
theorem pushToHistory_aligned (s : AppState) (x : String)
    (h : s.historyIndex = (s.history.length : ℤ) - 1) :
    (pushToHistory s x).history = s.history ++ [x] ∧
      (pushToHistory s x).historyIndex = (s.history.length : ℤ) := by
  have h1 : (s.historyIndex + 1).toNat = s.history.length := by omega
  constructor
  · simp [pushToHistory, h1, List.take_length]
  · simp [pushToHistory, h1, List.take_length]

/-- Pushing a list of snapshots from an aligned state appends them all
and leaves the cursor on the last element. -/
theorem pushMany_aligned (snaps : List String) (s : AppState)
    (h : s.historyIndex = (s.history.length : ℤ) - 1) :
    (pushMany s snaps).history = s.history ++ snaps ∧
      (pushMany s snaps).historyIndex = ((s.history.length : ℤ) + snaps.length) - 1 := by
  induction snaps generalizing s with
  | nil => simpa [pushMany] using h
  | cons a tl ih =>
    obtain ⟨hh, hi⟩ := pushToHistory_aligned s a h
    have halign : (pushToHistory s a).historyIndex =
        ((pushToHistory s a).history.length : ℤ) - 1 := by
      rw [hh, hi]; simp
    obtain ⟨ih1, ih2⟩ := ih (pushToHistory s a) halign
    have hfold : pushMany s (a :: tl) = pushMany (pushToHistory s a) tl := rfl
    refine ⟨?_, ?_⟩
    · rw [hfold, ih1, hh]; simp
    · rw [hfold, ih2, hh]; simp; omega

/-- Undoing k times with at least k steps of room just moves the cursor
back k steps and keeps the snapshots. -/
theorem undoMany_step (k : ℕ) (s : AppState) (h : (k : ℤ) ≤ s.historyIndex) :
    (undoMany s k).history = s.history ∧
      (undoMany s k).historyIndex = s.historyIndex - k := by
  induction k generalizing s with
  | zero => simp [undoMany]
  | succ n ih =>
    have hpos : s.historyIndex > 0 := by push_cast at h; omega
    have hu : handleUndo s = { s with
        historyIndex := s.historyIndex - 1
        activeText := none
        componentLayers := []
        activeComponentId := none } := by
      unfold handleUndo; rw [if_pos hpos]
    have hrec : undoMany s (n + 1) = undoMany (handleUndo s) n := rfl
    obtain ⟨ih1, ih2⟩ := ih (handleUndo s) (by rw [hu]; simp; omega)
    refine ⟨?_, ?_⟩
    · rw [hrec, ih1, hu]
    · rw [hrec, ih2, hu]; simp; ring

/-- C1: pushing N snapshots from the empty session, undoing K times
with 0 <= K <= N-1, then pushing once more truncates the redo branch:
the history has N-K+1 snapshots and the cursor points at the new last
element. -/
theorem history_push_after_undo (snaps : List String) (k : ℕ) (x : String)
    (hk : k + 1 ≤ snaps.length) :
    (pushToHistory (undoMany (pushMany initialState snaps) k) x).history.length
        = snaps.length - k + 1 ∧
      (pushToHistory (undoMany (pushMany initialState snaps) k) x).historyIndex
        = ((pushToHistory (undoMany (pushMany initialState snaps) k) x).history.length : ℤ)
            - 1 := by
  obtain ⟨h1, h2⟩ := pushMany_aligned snaps initialState (by simp [initialState])
  rw [show initialState.history = [] from rfl] at h1
  rw [show initialState.history = [] from rfl] at h2
  simp at h1 h2
  obtain ⟨u1, u2⟩ := undoMany_step k (pushMany initialState snaps)
    (by rw [h2]; omega)
  refine ⟨?_, pushToHistory_index _ x⟩
  have htn : ((undoMany (pushMany initialState snaps) k).historyIndex + 1).toNat
      = snaps.length - k := by
    rw [u2, h2]; omega
  simp [pushToHistory, htn, u1, h1, List.length_take]

/-- Closed instance of the C1 theorem: three pushes, one undo, one more
push gives three snapshots with the cursor on the last. -/
theorem history_push_after_undo_witness :
    (pushToHistory (undoMany (pushMany initialState ["s1", "s2", "s3"]) 1) "s4").history.length
        = ["s1", "s2", "s3"].length - 1 + 1 ∧
      (pushToHistory (undoMany (pushMany initialState ["s1", "s2", "s3"]) 1) "s4").historyIndex
        = ((pushToHistory (undoMany (pushMany initialState ["s1", "s2", "s3"]) 1)
            "s4").history.length : ℤ) - 1 :=
  history_push_after_undo ["s1", "s2", "s3"] 1 "s4" (by decide)

/-- C9: at the boundaries the cursor moves are no-ops: undo with cursor
at or below zero, and redo with the cursor at or beyond the last index,
return the state unchanged (in particular on the empty history, whose
cursor is -1). -/
theorem undo_redo_boundary_noop (s : AppState) :
    (s.historyIndex ≤ 0 → handleUndo s = s) ∧
      ((s.history.length : ℤ) - 1 ≤ s.historyIndex → handleRedo s = s) := by
  constructor
  · intro h; unfold handleUndo; rw [if_neg (by omega)]
  · intro h; unfold handleRedo; rw [if_neg (by omega)]

/-- Closed instance of the C9 theorem at the empty session: undo and
redo leave it untouched. -/
theorem undo_redo_boundary_noop_witness :
    handleUndo initialState = initialState ∧ handleRedo initialState = initialState :=
  ⟨(undo_redo_boundary_noop initialState).1 (by decide),
    (undo_redo_boundary_noop initialState).2 (by decide)⟩

/-! ## Geometry resolver -/

/-- C2 counterexample: a 100 x 100 natural image inside a 100 x 100
client box has all four dimensions positive, yet the resolved geometry
has both offsets zero, so it does not have exactly one zero offset. -/
theorem geometry_exactly_one_zero_cex :
    ¬ exactlyOneOffsetZero (getRenderedImageGeometry 100 100 100 100) := by
  have hg : getRenderedImageGeometry 100 100 100 100
      = { renderedWidth := 100, renderedHeight := 100, offsetX := 0, offsetY := 0
          scale := 1 } := by
    simp only [getRenderedImageGeometry]
    norm_num
  rw [hg]
  simp [exactlyOneOffsetZero]

/-- C2 amended: with positive dimensions at least one offset is zero,
exactly one is zero whenever the natural and client aspect ratios
differ, and a centering equation holds on the letterboxed axis. -/
theorem geometry_offsets_spec (nw nh cw ch : ℚ)
    (hnw : 0 < nw) (hnh : 0 < nh) (_hcw : 0 < cw) (hch : 0 < ch) :
    ((getRenderedImageGeometry nw nh cw ch).offsetX = 0 ∨
        (getRenderedImageGeometry nw nh cw ch).offsetY = 0) ∧
      (nw / nh ≠ cw / ch → exactlyOneOffsetZero (getRenderedImageGeometry nw nh cw ch)) ∧
      ((getRenderedImageGeometry nw nh cw ch).offsetX * 2 +
            (getRenderedImageGeometry nw nh cw ch).renderedWidth = cw ∨
        (getRenderedImageGeometry nw nh cw ch).offsetY * 2 +
            (getRenderedImageGeometry nw nh cw ch).renderedHeight = ch) := by
  simp only [getRenderedImageGeometry]
  split_ifs with h
  · have hlt : cw * nh < nw * ch := (div_lt_div_iff₀ hch hnh).mp h
    have hrh : cw / (nw / nh) < ch := by
      rw [div_div_eq_mul_div]
      rw [div_lt_iff₀ hnw]
      linarith
    refine ⟨Or.inl rfl, fun _ => Or.inl ⟨rfl, ?_⟩, Or.inl (by ring)⟩
    have : 0 < (ch - cw / (nw / nh)) / 2 := by linarith
    exact ne_of_gt this
  · push_neg at h
    refine ⟨Or.inr rfl, fun hne => Or.inr ⟨?_, rfl⟩, Or.inr (by ring)⟩
    have hlt : nw / nh < cw / ch := lt_of_le_of_ne h hne
    have hmul : nw * ch < cw * nh := (div_lt_div_iff₀ hnh hch).mp hlt
    have hrw : ch * (nw / nh) < cw := by
      rw [mul_div_assoc']
      rw [div_lt_iff₀ hnh]
      linarith
    have : 0 < (cw - ch * (nw / nh)) / 2 := by linarith
    exact ne_of_gt this

/-- Closed instance of the amended C2 theorem for a wide image in a
square box: the left offset is zero or the top offset is zero, the
aspect ratios differ so exactly one offset is zero, and one of the two
centering equations holds. -/
theorem geometry_offsets_spec_witness :
    ((getRenderedImageGeometry 200 100 100 100).offsetX = 0 ∨
        (getRenderedImageGeometry 200 100 100 100).offsetY = 0) ∧
      ((200 : ℚ) / 100 ≠ (100 : ℚ) / 100 →
        exactlyOneOffsetZero (getRenderedImageGeometry 200 100 100 100)) ∧
      ((getRenderedImageGeometry 200 100 100 100).offsetX * 2 +
            (getRenderedImageGeometry 200 100 100 100).renderedWidth = 100 ∨
        (getRenderedImageGeometry 200 100 100 100).offsetY * 2 +
            (getRenderedImageGeometry 200 100 100 100).renderedHeight = 100) :=
  geometry_offsets_spec 200 100 100 100 (by norm_num) (by norm_num) (by norm_num)
    (by norm_num)

/-! ## Component layer ids -/

/-- C3 counterexample: two component uploads that observe the same
Date.now() millisecond value receive the same id, so the collection
holds two layers with equal ids and its id list is not duplicate-free. -/
theorem component_id_collision_cex :
    ¬ ((uploadMany initialState [(0, "a.png", "dataA"), (0, "b.png", "dataB")]).componentLayers.map
        ComponentLayer.id).Nodup := by
  have hm : (uploadMany initialState
      [(0, "a.png", "dataA"), (0, "b.png", "dataB")]).componentLayers.map ComponentLayer.id
      = [componentIdOf 0, componentIdOf 0] := rfl
  rw [hm]
  decide

/-- Appending a fixed prefix to two distinct strings gives distinct
strings. -/
theorem string_append_left_inj (p a b : String) (h : p ++ a = p ++ b) : a = b := by
  have hd : (p ++ a).data = (p ++ b).data := congrArg String.data h
  simp only [String.data_append] at hd
  exact String.ext (List.append_cancel_left hd)

/-- The ids the upload sequence creates are exactly comp_ followed by
each upload's Date.now() value. -/
theorem uploadMany_ids (entries : List (ℕ × String × String)) (s : AppState) :
    (uploadMany s entries).componentLayers.map ComponentLayer.id
      = s.componentLayers.map ComponentLayer.id ++ entries.map (fun e => componentIdOf e.1) := by
  induction entries generalizing s with
  | nil => simp [uploadMany]
  | cons e tl ih =>
    have hfold : uploadMany s (e :: tl)
        = uploadMany (handleComponentUpload s e.1 e.2.1 e.2.2) tl := rfl
    rw [hfold, ih]
    simp [handleComponentUpload, componentIdOf]

/-- C3 amended: each created layer's id is comp_ followed by the
decimal rendering of the Date.now() value its upload observed, in
creation order; starting from an empty collection the ids are
duplicate-free whenever those decimal renderings are pairwise distinct
(in particular whenever no two uploads share a millisecond timestamp
rendering), and they collide when a millisecond is shared. -/
theorem component_ids_spec (entries : List (ℕ × String × String))
    (hts : (entries.map (fun e => toString e.1)).Nodup) :
    (uploadMany initialState entries).componentLayers.map ComponentLayer.id
        = entries.map (fun e => componentIdOf e.1) ∧
      ((uploadMany initialState entries).componentLayers.map ComponentLayer.id).Nodup := by
  have hids := uploadMany_ids entries initialState
  rw [show initialState.componentLayers = [] from rfl] at hids
  simp only [List.map_nil, List.nil_append] at hids
  refine ⟨hids, ?_⟩
  rw [hids]
  have hcomp : entries.map (fun e => componentIdOf e.1)
      = (entries.map (fun e => toString e.1)).map (fun t => "comp_" ++ t) := by
    simp [componentIdOf, Function.comp]
  rw [hcomp]
  exact hts.map (fun a b hab => string_append_left_inj _ a b hab)

/-- Closed instance of the amended C3 theorem: two uploads one
millisecond apart produce the two expected ids with no duplicate. -/
theorem component_ids_spec_witness :
    (uploadMany initialState [(5, "a.png", "dataA"), (6, "b.png", "dataB")]).componentLayers.map
          ComponentLayer.id
        = [(5, ("a.png", "dataA")), (6, ("b.png", "dataB"))].map
            (fun e => componentIdOf e.1) ∧
      ((uploadMany initialState
          [(5, "a.png", "dataA"), (6, "b.png", "dataB")]).componentLayers.map
          ComponentLayer.id).Nodup :=
  component_ids_spec [(5, "a.png", "dataA"), (6, "b.png", "dataB")] (by decide)

/-! ## Failure paths of the commit operations -/

/-- C4 counterexample: on the fresh session a text-bake decode failure
leaves the state untouched, and a component-merge decode failure hangs
with the loading flag stuck true - in neither case is the failure
converted to the session error slot, which stays empty. -/
theorem commit_failure_no_error_cex :
    (handleAddTextFailure initialState = initialState ∧ initialState.error = none) ∧
      ((handleMergeComponentDecodeFailure initialState).error = none ∧
        (handleMergeComponentDecodeFailure initialState).isLoading = true) :=
  ⟨⟨rfl, rfl⟩, rfl, rfl⟩

/-- C4 amended: a failing adjustment, a ratio apply whose snapshot
fails to decode, and a merge whose canvas context cannot be created
each store their message in the session error slot, clear the loading
flag, and leave the history and its cursor untouched; a text-bake
decode failure runs no code at all, and a merge decode failure hangs
with no error stored and the loading flag stuck true - both leave the
history and cursor untouched but are never converted to the error
slot. -/
theorem failure_atomicity_spec (s : AppState) (message : String) :
    ((handleApplyAdjustmentFailure s message).history = s.history ∧
        (handleApplyAdjustmentFailure s message).historyIndex = s.historyIndex ∧
        (handleApplyAdjustmentFailure s message).error = some message) ∧
      ((handleApplyRatioFailure s).history = s.history ∧
        (handleApplyRatioFailure s).historyIndex = s.historyIndex ∧
        (handleApplyRatioFailure s).error = some ratioLoadErrorMessage) ∧
      ((handleMergeComponentContextFailure s).history = s.history ∧
        (handleMergeComponentContextFailure s).historyIndex = s.historyIndex ∧
        (handleMergeComponentContextFailure s).error = some mergeContextErrorMessage) ∧
      ((handleMergeComponentDecodeFailure s).history = s.history ∧
        (handleMergeComponentDecodeFailure s).historyIndex = s.historyIndex ∧
        (handleMergeComponentDecodeFailure s).error = s.error ∧
        (handleMergeComponentDecodeFailure s).isLoading = true) ∧
      ((handleAddTextFailure s).history = s.history ∧
        (handleAddTextFailure s).historyIndex = s.historyIndex ∧
        (handleAddTextFailure s).error = s.error) :=
  ⟨⟨rfl, rfl, rfl⟩, ⟨rfl, rfl, rfl⟩, ⟨rfl, rfl, rfl⟩, ⟨rfl, rfl, rfl, rfl⟩, rfl, rfl, rfl⟩

/-! ## ActiveText dual coordinates -/

/-- C5: every operation that creates or updates an ActiveText
establishes the dual-coordinate invariant under the geometry it used:
click placement, fresh suggestion placement, suggestion replacement on
an existing text (which keeps the coordinates), and drag. -/
theorem active_text_invariant_spec (g : Geometry) (dX dY sMX sMY sTX sTY mX mY : ℚ)
    (t u : ActiveText) (sug : String) :
    (handleImageClick g dX dY = some u → textInvariant g u) ∧
      textInvariant g (handleSelectSuggestion g none sug) ∧
      (textInvariant g t → textInvariant g (handleSelectSuggestion g (some t) sug)) ∧
      textInvariant g (textDragMove g t sMX sMY sTX sTY mX mY) := by
  refine ⟨?_, ?_, ?_, ?_⟩
  · intro h
    simp only [handleImageClick] at h
    split at h
    · exact absurd h (by simp)
    · have hu := Option.some.inj h
      subst hu
      constructor <;> simp
  · constructor <;> simp [handleSelectSuggestion, textInvariant]
  · intro ht
    simpa [handleSelectSuggestion, textInvariant] using ht
  · constructor <;> simp [textDragMove, textInvariant]

/-- Closed instance of the C5 theorem: a fresh suggestion placement and
a drag under a concrete geometry both satisfy the invariant. -/
theorem active_text_invariant_spec_witness :
    textInvariant ⟨100, 100, 0, 0, 1⟩ (handleSelectSuggestion ⟨100, 100, 0, 0, 1⟩ none "Hello") ∧
      textInvariant ⟨100, 100, 0, 0, 1⟩
        (textDragMove ⟨100, 100, 0, 0, 1⟩
          ⟨"hi", "Roboto", 50, "bold", "normal", "#FFFFFF", 50, 50, 50, 50⟩ 0 0 50 50 10 10) :=
  ⟨(active_text_invariant_spec ⟨100, 100, 0, 0, 1⟩ 50 50 0 0 50 50 10 10
      ⟨"hi", "Roboto", 50, "bold", "normal", "#FFFFFF", 50, 50, 50, 50⟩
      ⟨"hi", "Roboto", 50, "bold", "normal", "#FFFFFF", 50, 50, 50, 50⟩ "Hello").2.1,
    (active_text_invariant_spec ⟨100, 100, 0, 0, 1⟩ 50 50 0 0 50 50 10 10
      ⟨"hi", "Roboto", 50, "bold", "normal", "#FFFFFF", 50, 50, 50, 50⟩
      ⟨"hi", "Roboto", 50, "bold", "normal", "#FFFFFF", 50, 50, 50, 50⟩ "Hello").2.2.2⟩

/-! ## Canvas resizer -/

/-- C6 counterexample: a 999 x 1000 original taken to ratio 16/9 grows
the width to round(1000 * 16/9) = 1778, and the horizontal draw offset
(1778 - 999) / 2 = 779/2 is not an integer. -/
theorem ratio_offset_not_integer_cex :
    ¬ ∃ z : ℤ, (handleApplyRatio 999 1000 (16 / 9)).drawX = (z : ℚ) := by
  have hf : (⌊(1000 : ℚ) * (16 / 9) + 1 / 2⌋ : ℤ) = 1778 := by
    norm_num [Int.floor_eq_iff]
  have hx : (handleApplyRatio 999 1000 (16 / 9)).drawX = 779 / 2 := by
    simp only [handleApplyRatio, jsRound]
    rw [if_pos (by norm_num)]
    simp only [hf]
    norm_num
  rintro ⟨z, hz⟩
  rw [hx] at hz
  have hzz : (779 : ℤ) = z * 2 := by
    field_simp at hz
    exact_mod_cast hz
  omega

/-- C6 amended: the resizer holds the height and grows the width when
the target ratio exceeds the original ratio, otherwise holds the width
and grows the height, rounds both dimensions with Math.round, and
centers the original at offsets ((newW-origW)/2, (newH-origH)/2) —
which are not necessarily integers; on a 1000 x 1000 original with
ratio 16/9 the result is 1778 x 1000 drawn at offsets (389, 0), that
is, 389 pixel left and right borders and no top or bottom border. -/
theorem apply_ratio_spec (ow oh r : ℚ) :
    (ow / oh < r →
      (handleApplyRatio ow oh r).newWidth = jsRound (oh * r) ∧
        (handleApplyRatio ow oh r).newHeight = jsRound oh) ∧
      (r ≤ ow / oh →
        (handleApplyRatio ow oh r).newWidth = jsRound ow ∧
          (handleApplyRatio ow oh r).newHeight = jsRound (ow / r)) ∧
      (handleApplyRatio ow oh r).drawX
        = (((handleApplyRatio ow oh r).newWidth : ℚ) - ow) / 2 ∧
      (handleApplyRatio ow oh r).drawY
        = (((handleApplyRatio ow oh r).newHeight : ℚ) - oh) / 2 ∧
      handleApplyRatio 1000 1000 (16 / 9)
        = { newWidth := 1778, newHeight := 1000, drawX := 389, drawY := 0 } := by
  refine ⟨?_, ?_, rfl, rfl, ?_⟩
  · intro h
    constructor <;> (simp only [handleApplyRatio]; rw [if_pos h])
  · intro h
    constructor <;> (simp only [handleApplyRatio]; rw [if_neg (not_lt.mpr h)])
  · have hf : (⌊(1000 : ℚ) * (16 / 9) + 1 / 2⌋ : ℤ) = 1778 := by
      norm_num [Int.floor_eq_iff]
    have hg : (⌊(1000 : ℚ) + 1 / 2⌋ : ℤ) = 1000 := by
      norm_num [Int.floor_eq_iff]
    simp only [handleApplyRatio, jsRound]
    rw [if_pos (by norm_num)]
    simp only [hf, hg, RatioResult.mk.injEq]
    norm_num

/-! ## Component merge transform order -/

/-- C7 counterexample: for a component with rotation 90 degrees (cosine
0, sine 1), flipH set and flipV clear, the transform the merge performs
sends the local point (1, 0) to (0, -1), while rotating first and then
flipping sends it to (0, 1): the merge result is not the rotate-then-
flip transform. -/
theorem merge_transform_order_cex :
    mergeComponentTransform
        ⟨"c1", "src", "file", 1 / 2, 1 / 2, 1 / 2, 90, true, false⟩
        ⟨0, 0⟩ 0 1 ⟨1, 0⟩
      ≠ rotateThenFlipTransform
        ⟨"c1", "src", "file", 1 / 2, 1 / 2, 1 / 2, 90, true, false⟩
        ⟨0, 0⟩ 0 1 ⟨1, 0⟩ := by
  simp only [mergeComponentTransform, rotateThenFlipTransform, translatePoint, rotatePoint,
    flipPoint, Point.mk.injEq, ne_eq]
  norm_num

/-- C7 amended: the merge applies the canvas calls in the order
translate, rotate, scale, and the canvas matrix composition applies the
flip-scaling to the component's local coordinates before the rotation:
the result equals flip-then-rotate; for rotation 90 degrees with flipH
set it coincides with rotating first and then flipping vertically, not
horizontally. -/
theorem merge_transform_spec (layer : ComponentLayer) (center p : Point)
    (hH : layer.flipH = true) (hV : layer.flipV = false) :
    mergeComponentTransform layer center 0 1 p
        = translatePoint center (rotatePoint 0 1 (flipPoint true false p)) ∧
      mergeComponentTransform layer center 0 1 p
        = translatePoint center (flipPoint false true (rotatePoint 0 1 p)) := by
  constructor
  · rw [mergeComponentTransform, hH, hV]
  · rw [mergeComponentTransform, hH, hV]
    simp only [translatePoint, rotatePoint, flipPoint, Point.mk.injEq]
    norm_num

/-- Closed instance of the amended C7 theorem at a concrete layer and
point. -/
theorem merge_transform_spec_witness :
    mergeComponentTransform
          ⟨"c2", "src", "file", 1 / 2, 1 / 2, 1 / 2, 90, true, false⟩ ⟨3, 4⟩ 0 1 ⟨1, 0⟩
        = translatePoint ⟨3, 4⟩ (rotatePoint 0 1 (flipPoint true false ⟨1, 0⟩)) ∧
      mergeComponentTransform
          ⟨"c2", "src", "file", 1 / 2, 1 / 2, 1 / 2, 90, true, false⟩ ⟨3, 4⟩ 0 1 ⟨1, 0⟩
        = translatePoint ⟨3, 4⟩ (flipPoint false true (rotatePoint 0 1 ⟨1, 0⟩)) :=
  merge_transform_spec ⟨"c2", "src", "file", 1 / 2, 1 / 2, 1 / 2, 90, true, false⟩
    ⟨3, 4⟩ ⟨1, 0⟩ rfl rfl

/-! ## Component drag -/

/-- C8: a component drag adds the screen delta divided by the rendered
dimensions to the drag-start fractional position and clamps each
coordinate to the 0-1 range; the pre-clamp increment is exactly
dx / renderedWidth, so a 50 pixel delta at rendered width 500 raises
the fractional x by exactly 1/10. -/
theorem component_drag_spec (g : Geometry) (sx sy dx dy : ℚ) :
    componentDragMove g sx sy dx dy
        = (max 0 (min 1 (componentDragRaw g sx sy dx dy).1),
            max 0 (min 1 (componentDragRaw g sx sy dx dy).2)) ∧
      (componentDragRaw g sx sy dx dy).1 - sx = dx / g.renderedWidth ∧
      (componentDragRaw g sx sy dx dy).2 - sy = dy / g.renderedHeight ∧
      (g.renderedWidth = 500 → dx = 50 →
        (componentDragRaw g sx sy dx dy).1 = sx + 1 / 10) := by
  refine ⟨rfl, by simp [componentDragRaw], by simp [componentDragRaw], ?_⟩
  intro h1 h2
  simp only [componentDragRaw, h1, h2]
  norm_num

/-- Closed instance of the C8 theorem: dragging by 50 pixels at
rendered width 500 raises the pre-clamp fractional x from 1/4 to
1/4 + 1/10. -/
theorem component_drag_spec_witness :
    (componentDragRaw ⟨500, 400, 0, 0, 2⟩ (1 / 4) (1 / 4) 50 0).1 = 1 / 4 + 1 / 10 :=
  (component_drag_spec ⟨500, 400, 0, 0, 2⟩ (1 / 4) (1 / 4) 50 0).2.2.2 rfl rfl

/-! ## Suggestion placement -/

/-- With positive dimensions the resolver's rendered box times its
scale factor recovers the natural dimensions. -/
theorem geometry_resolver_products (nw nh cw ch : ℚ)
    (hnw : 0 < nw) (hnh : 0 < nh) (hcw : 0 < cw) (hch : 0 < ch) :
    (getRenderedImageGeometry nw nh cw ch).renderedWidth
          * (getRenderedImageGeometry nw nh cw ch).scale = nw ∧
      (getRenderedImageGeometry nw nh cw ch).renderedHeight
          * (getRenderedImageGeometry nw nh cw ch).scale = nh := by
  have hnw0 : nw ≠ 0 := ne_of_gt hnw
  have hnh0 : nh ≠ 0 := ne_of_gt hnh
  have hcw0 : cw ≠ 0 := ne_of_gt hcw
  have hch0 : ch ≠ 0 := ne_of_gt hch
  simp only [getRenderedImageGeometry]
  split_ifs with h
  · constructor
    · field_simp
    · field_simp
  · constructor
    · field_simp
      ring
    · field_simp
      ring

/-- C10: selecting a suggestion with no ActiveText present creates one
at the exact natural-image center with font size 60, click placement
uses font size 50, and selecting a suggestion while an ActiveText
exists replaces only its text. -/
theorem suggestion_placement_spec (nw nh cw ch dX dY : ℚ) (t u : ActiveText) (sug : String)
    (hnw : 0 < nw) (hnh : 0 < nh) (hcw : 0 < cw) (hch : 0 < ch) :
    (handleSelectSuggestion (getRenderedImageGeometry nw nh cw ch) none sug).x = nw / 2 ∧
      (handleSelectSuggestion (getRenderedImageGeometry nw nh cw ch) none sug).y = nh / 2 ∧
      (handleSelectSuggestion (getRenderedImageGeometry nw nh cw ch) none sug).fontSize
        = 60 ∧
      (handleImageClick (getRenderedImageGeometry nw nh cw ch) dX dY = some u →
        u.fontSize = 50) ∧
      handleSelectSuggestion (getRenderedImageGeometry nw nh cw ch) (some t) sug
        = { t with text := sug } := by
  obtain ⟨hw, hh⟩ := geometry_resolver_products nw nh cw ch hnw hnh hcw hch
  refine ⟨?_, ?_, rfl, ?_, rfl⟩
  · simp only [handleSelectSuggestion]
    have hcalc : ((getRenderedImageGeometry nw nh cw ch).offsetX
          + (getRenderedImageGeometry nw nh cw ch).renderedWidth / 2
          - (getRenderedImageGeometry nw nh cw ch).offsetX)
            * (getRenderedImageGeometry nw nh cw ch).scale
        = (getRenderedImageGeometry nw nh cw ch).renderedWidth
            * (getRenderedImageGeometry nw nh cw ch).scale / 2 := by ring
    rw [hcalc, hw]
  · simp only [handleSelectSuggestion]
    have hcalc : ((getRenderedImageGeometry nw nh cw ch).offsetY
          + (getRenderedImageGeometry nw nh cw ch).renderedHeight / 2
          - (getRenderedImageGeometry nw nh cw ch).offsetY)
            * (getRenderedImageGeometry nw nh cw ch).scale
        = (getRenderedImageGeometry nw nh cw ch).renderedHeight
            * (getRenderedImageGeometry nw nh cw ch).scale / 2 := by ring
    rw [hcalc, hh]
  · intro hclick
    simp only [handleImageClick] at hclick
    split at hclick
    · exact absurd hclick (by simp)
    · rw [← Option.some.inj hclick]

/-- Closed instance of the C10 theorem on a square image in a square
box, with a concrete existing text and a concrete click result. -/
theorem suggestion_placement_spec_witness :
    (handleSelectSuggestion (getRenderedImageGeometry 100 100 100 100) none "Hi").x
        = 100 / 2 ∧
      (handleSelectSuggestion (getRenderedImageGeometry 100 100 100 100) none "Hi").y
        = 100 / 2 ∧
      (handleSelectSuggestion (getRenderedImageGeometry 100 100 100 100) none "Hi").fontSize
        = 60 ∧
      (handleImageClick (getRenderedImageGeometry 100 100 100 100) 50 50
          = some ⟨"hi", "Roboto", 50, "bold", "normal", "#FFFFFF", 50, 50, 50, 50⟩ →
        (ActiveText.fontSize ⟨"hi", "Roboto", 50, "bold", "normal", "#FFFFFF", 50, 50, 50, 50⟩)
          = 50) ∧
      handleSelectSuggestion (getRenderedImageGeometry 100 100 100 100)
          (some ⟨"hi", "Roboto", 50, "bold", "normal", "#FFFFFF", 50, 50, 50, 50⟩) "Hi"
        = { (⟨"hi", "Roboto", 50, "bold", "normal", "#FFFFFF", 50, 50, 50, 50⟩ : ActiveText)
            with text := "Hi" } :=
  suggestion_placement_spec 100 100 100 100 50 50
    ⟨"hi", "Roboto", 50, "bold", "normal", "#FFFFFF", 50, 50, 50, 50⟩
    ⟨"hi", "Roboto", 50, "bold", "normal", "#FFFFFF", 50, 50, 50, 50⟩ "Hi"
    (by norm_num) (by norm_num) (by norm_num) (by norm_num)
